import Mathlib

/-! Verification of the emergency-shelter API's data pipeline and query
engine (`app.py`), shallowly embedded in Lean.

Python floats are modelled by `PyFloat`: an exact rational for the finite
values (idealizing away binary rounding) together with the IEEE special
values, which Python's `float(str)` can produce and which flow into records
and comparisons. The geometry layer (`haversine_km`, `sort_by_distance`,
the `nearest` endpoint) idealizes floats as real numbers. -/

-- Batteries marks the rational-number arithmetic irreducible, which blocks
-- evaluation of concrete parses inside `decide`; restore the default
-- transparency for this file.
attribute [local semireducible] Rat.add Rat.mul Rat.inv Rat.sub

namespace App

/-- Whitespace as stripped by Python's `str.strip()`. Python strips any
Unicode whitespace; the model covers the ASCII range (space, tab, newline,
carriage return, vertical tab, form feed), which is what this repository's
inputs exercise. -/
def pySpace (c : Char) : Bool :=
  c = ' ' || c = '\t' || c = '\n' || c = '\r' || c.toNat = 11 || c.toNat = 12

/-- Python's `str.strip()`: drop whitespace from both ends. -/
def pyStrip (s : String) : String :=
  ⟨((s.data.dropWhile pySpace).reverse.dropWhile pySpace).reverse⟩

/-- Decimal value of a digit character. Python's numeric parsing and
`str.isdigit` accept any Unicode decimal digit; the model covers the ASCII
range and the fullwidth range U+FF10–U+FF19, the ones occurring in this
repository's (Japanese) data. -/
def digitVal (c : Char) : Option ℕ :=
  if 48 ≤ c.toNat ∧ c.toNat ≤ 57 then some (c.toNat - 48)
  else if 65296 ≤ c.toNat ∧ c.toNat ≤ 65305 then some (c.toNat - 65296)
  else none

/-- Scan a maximal run of decimal digits, allowing a single underscore
between two digits as Python's numeric grammar does. Returns the
accumulated value, the number of digits consumed, and the rest. -/
def digitRun (acc n : ℕ) : List Char → ℕ × ℕ × List Char
  | [] => (acc, n, [])
  | c :: cs =>
    match digitVal c with
    | some d => digitRun (acc * 10 + d) (n + 1) cs
    | none =>
      match c, cs with
      | '_', c2 :: cs2 =>
        match digitVal c2 with
        | some d => digitRun (acc * 10 + d) (n + 1) cs2
        | none => (acc, n, c :: cs)
      | _, _ => (acc, n, c :: cs)

/-- A Python float value as produced by `float(str)`: a finite value
(idealized as an exact rational) or one of the IEEE special values. -/
inductive PyFloat where
  | finite (q : ℚ)
  | pinf
  | ninf
  | nan
deriving DecidableEq

/-- Python's `<` on floats: any comparison with NaN is false. -/
def PyFloat.lt : PyFloat → PyFloat → Bool
  | .nan, _ => false
  | _, .nan => false
  | .ninf, .ninf => false
  | .ninf, _ => true
  | _, .ninf => false
  | .pinf, _ => false
  | .finite _, .pinf => true
  | .finite a, .finite b => decide (a < b)

/-- Python's `<=` on floats: any comparison with NaN is false. -/
def PyFloat.le : PyFloat → PyFloat → Bool
  | .nan, _ => false
  | _, .nan => false
  | .ninf, _ => true
  | _, .pinf => true
  | .pinf, _ => false
  | .finite _, .ninf => false
  | .finite a, .finite b => decide (a ≤ b)

/-- Python's `>` on floats. -/
def PyFloat.gt (a b : PyFloat) : Bool := PyFloat.lt b a

/-- A Python float is finite when it is neither infinite nor NaN. -/
def PyFloat.isFinite : PyFloat → Bool
  | .finite _ => true
  | _ => false

/-- Parse an exponent tail: optional sign then a digit run (underscores
between digits allowed), consuming all input. -/
def parseExp (l : List Char) : Option ℤ :=
  match l with
  | [] => none
  | c :: cs =>
    let p : ℤ × List Char :=
      if c = '+' then (1, cs) else if c = '-' then (-1, cs) else (1, c :: cs)
    match p.2 with
    | [] => none
    | c2 :: cs2 =>
      match digitVal c2 with
      | none => none
      | some d =>
        match digitRun d 1 cs2 with
        | (v, _, []) => some (p.1 * v)
        | _ => none

/-- An optional `e`/`E` exponent part finishing the literal: empty input
keeps the mantissa, anything but a well-formed exponent fails. -/
def applyExp (m : ℚ) : List Char → Option ℚ
  | [] => some m
  | c :: cs =>
    if c = 'e' ∨ c = 'E' then
      match parseExp cs with
      | some e => some (m * (10 : ℚ) ^ e)
      | none => none
    else none

/-- Parse an optional fraction-digit run after the decimal point, returning
its value, the number of digits, and the rest. -/
def parseFrac : List Char → ℚ × ℕ × List Char
  | [] => (0, 0, [])
  | c :: cs =>
    match digitVal c with
    | some d =>
      match digitRun d 1 cs with
      | (fv, fn, rest) => ((fv : ℚ) / (10 : ℚ) ^ fn, fn, rest)
    | none => (0, 0, c :: cs)

/-- Parse the body of a decimal float literal (after sign removal):
`intpart [. fracpart] [exp]` or `. fracpart [exp]`, with at least one
digit, consuming all input. -/
def parseDecimal (l : List Char) : Option ℚ :=
  match l with
  | [] => none
  | c :: cs =>
    match digitVal c with
    | some d =>
      match digitRun d 1 cs with
      | (iv, _, r1) =>
        match r1 with
        | '.' :: r2 =>
          match parseFrac r2 with
          | (fv, _, r3) => applyExp ((iv : ℚ) + fv) r3
        | _ => applyExp (iv : ℚ) r1
    | none =>
      if c = '.' then
        match parseFrac cs with
        | (fv, fn, r3) => if fn = 0 then none else applyExp fv r3
      else none

/-- ASCII lowercasing of a character list (for the case-insensitive
`inf` / `infinity` / `nan` spellings). -/
def lowerAscii (l : List Char) : List Char := l.map Char.toLower

/-- Model of Python's `float(str)`: strip whitespace, take an optional
sign, then either an `inf`/`infinity`/`nan` spelling (case-insensitive) or
a decimal literal. Returns `none` where Python raises `ValueError`. -/
def pyFloat (s : String) : Option PyFloat :=
  let l := (pyStrip s).data
  let p : Bool × List Char :=
    match l with
    | '+' :: rest => (false, rest)
    | '-' :: rest => (true, rest)
    | _ => (false, l)
  let low := lowerAscii p.2
  if low = "inf".data ∨ low = "infinity".data then
    some (if p.1 then PyFloat.ninf else PyFloat.pinf)
  else if low = "nan".data then some PyFloat.nan
  else
    match parseDecimal p.2 with
    | some q => some (PyFloat.finite (if p.1 then -q else q))
    | none => none

/-- Model of Python's `int(str)`: strip whitespace, optional sign, then a
digit run (underscores between digits allowed), nothing else. Returns
`none` where Python raises `ValueError`. -/
def pyInt (s : String) : Option ℤ :=
  let l := (pyStrip s).data
  let p : ℤ × List Char :=
    match l with
    | '+' :: rest => (1, rest)
    | '-' :: rest => (-1, rest)
    | _ => (1, l)
  match p.2 with
  | [] => none
  | c :: cs =>
    match digitVal c with
    | none => none
    | some d =>
      match digitRun d 1 cs with
      | (v, _, []) => some (p.1 * v)
      | _ => none

/-- Python's `a or b` on optional strings: `None` and `""` are falsy. -/
def pyOr (a b : Option String) : Option String :=
  match a with
  | some s => if s = "" then b else some s
  | none => b

/-- The `(x or default)` idiom producing a string: `None` and `""` fall
back to the default. -/
def orDefault (v : Option String) (d : String) : String :=
  match v with
  | some s => if s = "" then d else s
  | none => d

/-- Truthiness of an optional string in Python. -/
def truthyStr : Option String → Bool
  | some s => s != ""
  | none => false

/-- Python's `str.isdigit`: nonempty and every character a decimal digit
(Unicode-aware; modelled over the ranges of `digitVal`). -/
def pyIsDigitStr (s : String) : Bool :=
  !s.data.isEmpty && s.data.all (fun c => (digitVal c).isSome)

/-- The `Shelter` dataclass of `app.py`. The coordinate field type is a
parameter: the ingestion layer stores parsed Python floats, the geometry
layer real numbers. -/
structure Shelter (F : Type) where
  id : String
  name : String
  address : String
  latitude : F
  longitude : F
  notes : String
deriving DecidableEq

/-- A CSV row as handed to the parsers by `csv.DictReader`: a lookup from
column name to cell content; `none` models both a missing key and
`DictReader`'s `None` filler. -/
abbrev Row : Type := String → Option String

/-- Model of `_safe_float`: `float(value)` with `TypeError`/`ValueError` mapped to
`None` (a `None` argument raises `TypeError`, hence parses to `none`). -/
def safe_float (v : Option String) : Option PyFloat :=
  match v with
  | none => none
  | some s => pyFloat s

/-- Model of `_parse_row_13121`: the Variant A (facility-registry) row parser. -/
def parse_row_13121 (row : Row) : Option (Shelter PyFloat) :=
  match safe_float (row "緯度"), safe_float (row "経度") with
  | some lat, some lon =>
    some ⟨orDefault (row "共通ID") "", orDefault (row "施設・場所名") "不明",
      orDefault (row "住所") "", lat, lon, orDefault (row "備考") ""⟩
  | _, _ => none

/-- Model of `_parse_row_merge`: the Variant B (generic fallback) row parser with
its alias chains. -/
def parse_row_merge (row : Row) : Option (Shelter PyFloat) :=
  match safe_float (pyOr (row "lat") (pyOr (row "latitude") (row "緯度"))),
      safe_float (pyOr (row "lon") (pyOr (row "lng")
        (pyOr (row "longitude") (row "経度")))) with
  | some lat, some lon =>
    some ⟨orDefault (pyOr (row "id") (row "共通ID")) "",
      orDefault (pyOr (row "name") (pyOr (row "施設・場所名") (row "place"))) "不明",
      orDefault (pyOr (row "address") (row "住所")) "",
      lat, lon, orDefault (row "備考") ""⟩
  | _, _ => none

/-- The expression `",".join(header)` as used by `_choose_parser`. -/
def joinComma : List String → String
  | [] => ""
  | [s] => s
  | s :: rest => s ++ "," ++ joinComma rest

/-- Prefix test on character lists (needle against haystack). -/
def leadsWith : List Char → List Char → Bool
  | [], _ => true
  | _ :: _, [] => false
  | a :: as, b :: bs => a == b && leadsWith as bs

/-- Substring containment on character lists. -/
def containsSub (n : List Char) : List Char → Bool
  | [] => leadsWith n []
  | c :: cs => leadsWith n (c :: cs) || containsSub n cs

/-- Python's `needle in haystack` on strings. -/
def strIn (needle hay : String) : Bool := containsSub needle.data hay.data

/-- Model of `_choose_parser`: Variant A (the `_parse_row_13121` mapping) is chosen
when the three Japanese column names all occur as substrings of the
comma-joined header; otherwise Variant B (`_parse_row_merge`). -/
def chooseVariantA (header : List String) : Bool :=
  let hs := joinComma header
  strIn "施設・場所名" hs && strIn "緯度" hs && strIn "経度" hs

example : pyFloat "35.77" = some (PyFloat.finite (3577 / 100)) := by decide
example : pyFloat " -1.5e2 " = some (PyFloat.finite (-150)) := by decide
example : pyFloat "inf" = some PyFloat.pinf := by decide
example : pyFloat "abc" = none := by decide
example : pyFloat "" = none := by decide
example : pyFloat "1_0" = some (PyFloat.finite 10) := by decide
example : pyInt "  42 " = some 42 := by decide
example : pyInt "4.2" = none := by decide
example : pyInt "-7" = some (-7) := by decide

/-! ## Query engine: `list_shelters` -/

/-- Split a character list at commas (Python's `str.split(",")`): the
empty string yields one empty field, and n commas yield n + 1 fields. -/
def splitComma : List Char → List (List Char)
  | [] => [[]]
  | c :: cs =>
    if c = ',' then [] :: splitComma cs
    else
      match splitComma cs with
      | h :: t => (c :: h) :: t
      | [] => [[c]]

/-- Python's `str.split(",")` on strings. -/
def pySplitComma (s : String) : List String :=
  (splitComma s.data).map (fun l => ⟨l⟩)

instance {ε α : Type} [DecidableEq ε] [DecidableEq α] :
    DecidableEq (Except ε α) := fun
  | .error e, .error f =>
    if h : e = f then .isTrue (congrArg Except.error h)
    else .isFalse (fun hh => h (Except.error.inj hh))
  | .error _, .ok _ => .isFalse (fun hh => Except.noConfusion hh)
  | .ok _, .error _ => .isFalse (fun hh => Except.noConfusion hh)
  | .ok a, .ok b =>
    if h : a = b then .isTrue (congrArg Except.ok h)
    else .isFalse (fun hh => h (Except.ok.inj hh))

/-- The two 400-responses of the bbox block ("bbox must be
'minLon,minLat,maxLon,maxLat'" and "bbox values must be numbers") and the
ordering 400 ("bbox min must be <= max"). -/
inductive BboxErr where
  | formatCount
  | formatNumber
  | ordering
deriving DecidableEq

/-- The four bbox bounds, in the order the code unpacks them. -/
structure Bbox where
  minLon : PyFloat
  minLat : PyFloat
  maxLon : PyFloat
  maxLat : PyFloat
deriving DecidableEq

/-- The bbox parsing stage of `list_shelters`: split on commas, strip each
part and drop the empty ones, require exactly four parts, parse each with
`float`. -/
def parseBbox (bbox : String) : Except BboxErr Bbox :=
  let parts := ((pySplitComma bbox).map pyStrip).filter (fun p => p ≠ "")
  match parts with
  | [p0, p1, p2, p3] =>
    match pyFloat p0, pyFloat p1, pyFloat p2, pyFloat p3 with
    | some a, some b, some c, some d => .ok ⟨a, b, c, d⟩
    | _, _, _, _ => .error .formatNumber
  | _ => .error .formatCount

/-- Membership test of the bbox filter: `min_lat <= s.latitude <= max_lat
and min_lon <= s.longitude <= max_lon` with Python float comparisons. -/
def bboxKeep (b : Bbox) (s : Shelter PyFloat) : Bool :=
  PyFloat.le b.minLat s.latitude && PyFloat.le s.latitude b.maxLat &&
  PyFloat.le b.minLon s.longitude && PyFloat.le s.longitude b.maxLon

/-- The bbox block of `list_shelters` applied to the (possibly q-filtered)
items: parse, check the bound ordering, then filter. -/
def applyBbox (bbox : String) (items : List (Shelter PyFloat)) :
    Except BboxErr (List (Shelter PyFloat)) :=
  match parseBbox bbox with
  | .error e => .error e
  | .ok b =>
    if PyFloat.gt b.minLat b.maxLat || PyFloat.gt b.minLon b.maxLon then
      .error .ordering
    else .ok (items.filter (bboxKeep b))

/-- The `limit` handling of `list_shelters`: `request.args.get("limit", "100")`
int-parsed and clamped with `max(1, min(500, ...))`; `ValueError` → 100. -/
def listLimit (limitArg : Option String) : ℕ :=
  match pyInt (limitArg.getD "100") with
  | some n => (max 1 (min 500 n)).toNat
  | none => 100

/-- The `offset` handling of `list_shelters`: `request.args.get("offset", "0")`
int-parsed and clamped with `max(0, ...)`; `ValueError` → 0. -/
def listOffset (offsetArg : Option String) : ℕ :=
  match pyInt (offsetArg.getD "0") with
  | some n => n.toNat
  | none => 0

/-- The pagination fields of the `list_shelters` response. -/
structure Page where
  total : ℕ
  count : ℕ
  offset : ℕ
  limit : ℕ
  items : List (Shelter PyFloat)

/-- The pagination tail of `list_shelters` over the filtered sequence:
`page_items = filtered[offset : offset + limit]`, `total = len(filtered)`,
`count = len(page_items)`. -/
def paginate (limitArg offsetArg : Option String)
    (filtered : List (Shelter PyFloat)) : Page :=
  let limit := listLimit limitArg
  let offset := listOffset offsetArg
  let page := (filtered.drop offset).take limit
  ⟨filtered.length, page.length, offset, limit, page⟩

/-! ## `nearest_by_zip` -/

/-- The zip validation gate of `nearest_by_zip`:
`zip_code = (request.args.get("zip") or "").strip()` followed by
`not zip_code or not zip_code.isdigit() or len(zip_code) != 7` → 400. -/
def zipGate (zipArg : Option String) : Bool :=
  let z := pyStrip (orDefault zipArg "")
  !(z == "") && pyIsDigitStr z && z.length == 7

/-- Outcome of a Flask view call: a response with an HTTP status, or an
uncaught Python exception propagating out of the handler. -/
inductive ViewOutcome where
  | response (status : ℕ) (body : String)
  | exn (kind : String)
deriving DecidableEq

/-- Model of `nearest_by_zip` up to its first outward interaction. After the zip
gate the handler evaluates `os.environ.get(AIzaSyBs…)`: that argument is a
bare identifier which is bound nowhere in the module, so Python raises
`NameError` on this line — before any environment lookup or network call —
regardless of the environment contents. -/
def nearest_by_zip_entry (zipArg : Option String)
    (_env : String → Option String) : ViewOutcome :=
  if zipGate zipArg then ViewOutcome.exn "NameError"
  else ViewOutcome.response 400 "zip must be 7 digits (no hyphen)"

/-! ## Geometry layer: `haversine_km`, `sort_by_distance`, `nearest` -/

open scoped Classical

/-- Model of `math.radians`: degrees to radians. -/
noncomputable def radians (x : ℝ) : ℝ := x * Real.pi / 180

/-- Model of `haversine_km` from `app.py`, over the reals. -/
noncomputable def haversine_km (lat1 lon1 lat2 lon2 : ℝ) : ℝ :=
  let dlat := radians (lat2 - lat1)
  let dlon := radians (lon2 - lon1)
  let a := Real.sin (dlat / 2) ^ 2 +
    Real.cos (radians lat1) * Real.cos (radians lat2) * Real.sin (dlon / 2) ^ 2
  let c := 2 * Real.arcsin (min 1 (Real.sqrt a))
  6371.0 * c

/-- Model of `round(x, 3)`: rounding to 3 decimal places (Python's float rounding is
idealized to exact rounding of the real value). -/
noncomputable def round3 (x : ℝ) : ℝ := (round (x * 1000) : ℤ) / 1000

/-- Pair a shelter with its distance from the origin, as built in
`sort_by_distance`'s loop. -/
noncomputable def distPair (lat lon : ℝ) (s : Shelter ℝ) : Shelter ℝ × ℝ :=
  (s, haversine_km lat lon s.latitude s.longitude)

/-- The comparison key of `result.sort(key=lambda pair: pair[1])`. -/
noncomputable def distLE (p q : Shelter ℝ × ℝ) : Bool := decide (p.2 ≤ q.2)

/-- Model of `sort_by_distance`: pair every shelter with its haversine distance from
the origin and stably sort on the distance key (`list.sort` is Timsort, a
stable sort; modelled by the stable `mergeSort`). -/
noncomputable def sort_by_distance (lat lon : ℝ)
    (shelters : List (Shelter ℝ)) : List (Shelter ℝ × ℝ) :=
  (shelters.map (distPair lat lon)).mergeSort distLE

/-- The `limit` handling of `nearest`: `request.args.get("limit") or
request.args.get("n") or "5"`, int-parsed and clamped with
`max(1, min(50, ...))`; `ValueError` → 5. -/
def nearestLimit (limitArg nArg : Option String) : ℕ :=
  match pyInt ((pyOr limitArg (pyOr nArg (some "5"))).getD "") with
  | some n => (max 1 (min 50 n)).toNat
  | none => 5

/-- The success payload of the `nearest` endpoint. -/
structure NearestResp where
  originLat : ℝ
  originLon : ℝ
  limit : ℕ
  items : List (Shelter ℝ × ℝ)

/-- The `nearest` endpoint after the numeric parse of `lat`/`lon`: validate
the ranges, clamp the limit, rank the full dataset by distance, keep the
first `limit` entries, round each distance to 3 decimals. -/
noncomputable def nearest (lat lon : ℝ) (limitArg nArg : Option String)
    (ds : List (Shelter ℝ)) : Except String NearestResp :=
  if -90 ≤ lat ∧ lat ≤ 90 ∧ -180 ≤ lon ∧ lon ≤ 180 then
    let limit := nearestLimit limitArg nArg
    .ok ⟨lat, lon, limit,
      ((sort_by_distance lat lon ds).take limit).map (fun p => (p.1, round3 p.2))⟩
  else .error "lat must be in [-90,90], lon in [-180,180]"

/-! ## Readings of the spec sentences under dispute, for the
counterexamples: each follows the spec's words, to be compared with the
definitions translated from the code. -/

/-- Spec reading (C2): the bbox string parses as exactly four
comma-separated numbers. -/
def specFourNumbers (bbox : String) : Bool :=
  let parts := pySplitComma bbox
  parts.length == 4 && parts.all (fun p => (pyFloat p).isSome)

/-- Spec reading (C3): the raw cell parses as a finite number. -/
def specParsesFinite (v : Option String) : Bool :=
  match safe_float v with
  | some f => f.isFinite
  | none => false

/-- Spec reading (C4): Variant B name priority `name`, then `place`, then
the Variant-A facility-name column. -/
def specNameSpecOrder (row : Row) : String :=
  orDefault (pyOr (row "name") (pyOr (row "place") (row "施設・場所名"))) "不明"

/-- Spec reading (C6): the request string itself consists of exactly 7
ASCII digits. -/
def specSevenAsciiDigits (s : String) : Bool :=
  s.length == 7 && s.data.all (fun c => 48 ≤ c.toNat && c.toNat ≤ 57)

/-- Spec reading (C8): the header contains the three Variant-A column
names as actual columns (list elements). -/
def specVariantAColumns (header : List String) : Bool :=
  header.contains "施設・場所名" && header.contains "緯度" && header.contains "経度"

/-! ## Concrete rows used by counterexamples and witnesses -/

/-- A Variant-A row whose latitude cell is the spelling `inf`. -/
def rowInfLat : Row := fun k =>
  if k = "緯度" then some "inf" else if k = "経度" then some "139.0" else none

/-- A Variant-B row with a `place` cell, a Variant-A facility-name cell,
and no `name` cell. -/
def rowPlaceAndFacility : Row := fun k =>
  if k = "place" then some "P"
  else if k = "施設・場所名" then some "F"
  else if k = "lat" then some "1"
  else if k = "lon" then some "2"
  else none

/-- A Variant-B row with a `name` cell and parsable coordinates. -/
def rowNamed : Row := fun k =>
  if k = "name" then some "N"
  else if k = "lat" then some "1"
  else if k = "lon" then some "2"
  else none

/-- The record `rowNamed` parses to. -/
def rowNamedShelter : Shelter PyFloat :=
  ⟨"", "N", "", PyFloat.finite 1, PyFloat.finite 2, ""⟩

/-- A Variant-B row whose `lat` cell is non-numeric while the
lower-priority `latitude` alias holds a parsable number. -/
def rowBadLat : Row := fun k =>
  if k = "lat" then some "abc"
  else if k = "latitude" then some "35.0"
  else if k = "lon" then some "139.0"
  else none

/-! ## Helper lemmas -/

theorem pyOr_of_truthy {a : Option String} (b : Option String)
    (h : truthyStr a = true) : pyOr a b = a := by
  cases a with
  | none => simp [truthyStr] at h
  | some s => simp [truthyStr] at h; simp [pyOr, h]

theorem pyOr_of_untruthy {a : Option String} (b : Option String)
    (h : truthyStr a = false) : pyOr a b = b := by
  cases a with
  | none => rfl
  | some s => simp [truthyStr] at h; simp [pyOr, h]

theorem orDefault_of_untruthy {a : Option String} (d : String)
    (h : truthyStr a = false) : orDefault a d = d := by
  cases a with
  | none => rfl
  | some s => simp [truthyStr] at h; simp [orDefault, h]

theorem orDefault_some {s : String} (d : String) (h : s ≠ "") :
    orDefault (some s) d = s := by
  simp [orDefault, h]

theorem round3_mono {x y : ℝ} (h : x ≤ y) : round3 x ≤ round3 y := by
  unfold round3
  have h1 : round (x * 1000) ≤ round (y * 1000) := by
    rw [round_eq, round_eq]
    exact Int.floor_le_floor (by linarith)
  have h2 : ((round (x * 1000) : ℤ) : ℝ) ≤ ((round (y * 1000) : ℤ) : ℝ) := by
    exact_mod_cast h1
  linarith

theorem leadsWith_append (n post : List Char) : leadsWith n (n ++ post) = true := by
  induction n with
  | nil => rfl
  | cons a as ih => simp [leadsWith, ih]

theorem containsSub_of_leads {n hay : List Char} (h : leadsWith n hay = true) :
    containsSub n hay = true := by
  cases hay with
  | nil => exact h
  | cons c cs => simp [containsSub, h]

theorem containsSub_append_left (n pre hay : List Char)
    (h : containsSub n hay = true) : containsSub n (pre ++ hay) = true := by
  induction pre with
  | nil => simpa using h
  | cons c p ih => simp [containsSub, ih]

theorem containsSub_of_decomp (n pre post : List Char) :
    containsSub n (pre ++ n ++ post) = true := by
  have h : containsSub n (n ++ post) = true :=
    containsSub_of_leads (leadsWith_append n post)
  have := containsSub_append_left n pre (n ++ post) h
  simpa [List.append_assoc] using this

theorem strIn_joinComma_of_mem (s : String) (l : List String) (h : s ∈ l) :
    strIn s (joinComma l) = true := by
  induction l with
  | nil => cases h
  | cons a t ih =>
    cases h with
    | head =>
      cases t with
      | nil =>
        show containsSub s.data (joinComma [s]).data = true
        simpa using containsSub_of_decomp s.data [] []
      | cons b t' =>
        show containsSub s.data (s ++ "," ++ joinComma (b :: t')).data = true
        have := containsSub_of_decomp s.data []
          ((",".data) ++ (joinComma (b :: t')).data)
        simpa [String.data_append, List.append_assoc] using this
    | tail _ hmem =>
      cases t with
      | nil => cases hmem
      | cons b t' =>
        show containsSub s.data (a ++ "," ++ joinComma (b :: t')).data = true
        have ihh : containsSub s.data (joinComma (b :: t')).data = true := ih hmem
        have := containsSub_append_left s.data
          ((a ++ ",").data) ((joinComma (b :: t')).data) ihh
        simpa [String.data_append, List.append_assoc] using this

end App

namespace App

/-! ## Claim theorems -/

/-- C9: `distance_km(p, p) = 0` for every point, and `distance_km` is
symmetric in its two points. -/
theorem haversine_refl_and_symm :
    (∀ lat lon : ℝ, haversine_km lat lon lat lon = 0) ∧
    (∀ lat1 lon1 lat2 lon2 : ℝ,
      haversine_km lat1 lon1 lat2 lon2 = haversine_km lat2 lon2 lat1 lon1) := by
  have hneg : ∀ x : ℝ, Real.sin (radians (-x) / 2) ^ 2 = Real.sin (radians x / 2) ^ 2 := by
    intro x
    have h : radians (-x) = -radians x := by unfold radians; ring
    rw [h, neg_div, Real.sin_neg, neg_sq]
  constructor
  · intro lat lon
    simp [haversine_km, radians, Real.arcsin_zero]
  · intro lat1 lon1 lat2 lon2
    have h1 : Real.sin (radians (lat1 - lat2) / 2) ^ 2
        = Real.sin (radians (lat2 - lat1) / 2) ^ 2 := by
      rw [show lat1 - lat2 = -(lat2 - lat1) by ring]; exact hneg _
    have h2 : Real.sin (radians (lon1 - lon2) / 2) ^ 2
        = Real.sin (radians (lon2 - lon1) / 2) ^ 2 := by
      rw [show lon1 - lon2 = -(lon2 - lon1) by ring]; exact hneg _
    simp only [haversine_km]
    rw [h1, h2, mul_comm (Real.cos (radians lat2)) (Real.cos (radians lat1))]

/-- C5 (code bug): once the zip gate passes, `nearest_by_zip` raises
`NameError` at the credential lookup — the env-var name is written as a
bare unbound identifier — so no "service not configured" response is
produced and no environment lookup happens, whatever the environment. -/
theorem nearest_by_zip_raises_name_error :
    ∀ env : String → Option String,
      nearest_by_zip_entry (some "1234567") env = ViewOutcome.exn "NameError" := by
  intro env
  rfl

/-- C10: a row whose `lat` cell holds a non-empty string that does not
parse as a number is dropped by the Variant B parser, even when a
lower-priority latitude alias would parse. -/
theorem parse_row_merge_lat_no_fallback (row : Row) (s : String)
    (h1 : row "lat" = some s) (h2 : s ≠ "") (h3 : pyFloat s = none) :
    parse_row_merge row = none := by
  unfold parse_row_merge
  have hl : pyOr (row "lat") (pyOr (row "latitude") (row "緯度")) = some s := by
    rw [h1]; simp [pyOr, h2]
  rw [hl]
  simp [safe_float, h3]

/-- C10 witness at a concrete row: `lat = "abc"`, `latitude = "35.0"`,
`lon = "139.0"`; the row is dropped. -/
theorem parse_row_merge_lat_no_fallback_witness :
    (rowBadLat "lat" = some "abc" ∧ "abc" ≠ "" ∧ pyFloat "abc" = none) ∧
    parse_row_merge rowBadLat = none :=
  ⟨⟨rfl, by decide, by decide⟩,
    parse_row_merge_lat_no_fallback rowBadLat "abc" rfl (by decide) (by decide)⟩

/-- C3 counterexample: the latitude spelling `inf` does not parse as a
finite number, yet `_parse_row_13121` constructs a record from the row. -/
theorem parse_row_13121_nonfinite_accepted :
    specParsesFinite (rowInfLat "緯度") = false ∧
    (parse_row_13121 rowInfLat).isSome = true := by
  constructor
  · decide
  · decide

/-- C3 amended: a record is constructed exactly when both coordinate cells
parse as Python floats — including the non-finite `inf`/`infinity`/`nan`
spellings; no finiteness check is performed. -/
theorem parse_row_13121_gate (row : Row) :
    (parse_row_13121 row).isSome =
      ((safe_float (row "緯度")).isSome && (safe_float (row "経度")).isSome) := by
  unfold parse_row_13121
  cases safe_float (row "緯度") <;> cases safe_float (row "経度") <;> simp

/-- C6 counterexample: `" 1234567"` does not consist of exactly 7 ASCII
digits (it begins with a space), yet the gate strips it and passes it. -/
theorem zipGate_strip_counterexample :
    specSevenAsciiDigits " 1234567" = false ∧ zipGate (some " 1234567") = true := by
  constructor
  · decide
  · decide

/-- C6 amended: the gate passes exactly when the whitespace-stripped query
string has exactly 7 characters, each a decimal digit in Python's
Unicode-aware `str.isdigit` sense (not only ASCII digits). -/
theorem zipGate_iff (zipArg : Option String) :
    zipGate zipArg =
      ((pyStrip (orDefault zipArg "")).length == 7 &&
       (pyStrip (orDefault zipArg "")).data.all fun c => (digitVal c).isSome) := by
  unfold zipGate pyIsDigitStr
  cases h7 : (pyStrip (orDefault zipArg "")).length == 7 with
  | false => simp [h7]
  | true =>
    have h7n : (pyStrip (orDefault zipArg "")).length = 7 := by simpa using h7
    have h7' : (pyStrip (orDefault zipArg "")).data.length = 7 := h7n
    have hne : (pyStrip (orDefault zipArg "") == "") = false := by
      rw [beq_eq_false_iff_ne]
      intro he
      rw [he] at h7'
      simp at h7'
    have hnil : (pyStrip (orDefault zipArg "")).data.isEmpty = false := by
      cases hd : (pyStrip (orDefault zipArg "")).data with
      | nil => rw [hd] at h7'; simp at h7'
      | cons c cs => simp [hd]
    simp [h7, hne, hnil]

/-- C8 counterexample: a header in which the three Variant-A names occur
only as proper substrings of other column names (so none is an actual
column) still selects Variant A. -/
theorem chooseVariantA_counterexample :
    specVariantAColumns ["施設・場所名称", "緯度N", "経度E"] = false ∧
    chooseVariantA ["施設・場所名称", "緯度N", "経度E"] = true := by
  constructor
  · decide
  · decide

/-- C8 amended: Variant A is chosen exactly when each of the three names
occurs as a substring of the comma-joined header; in particular any header
containing all three as actual columns selects Variant A, but substring
occurrences inside other column names suffice as well. -/
theorem chooseVariantA_spec (header : List String) :
    (chooseVariantA header = true ↔
      (strIn "施設・場所名" (joinComma header) = true ∧
       strIn "緯度" (joinComma header) = true ∧
       strIn "経度" (joinComma header) = true)) ∧
    ("施設・場所名" ∈ header → "緯度" ∈ header → "経度" ∈ header →
      chooseVariantA header = true) := by
  constructor
  · unfold chooseVariantA
    simp [Bool.and_eq_true, and_assoc]
  · intro h1 h2 h3
    unfold chooseVariantA
    simp [strIn_joinComma_of_mem _ _ h1, strIn_joinComma_of_mem _ _ h2,
      strIn_joinComma_of_mem _ _ h3]

/-- C8 witness: a header holding the three names as actual columns selects
Variant A. -/
theorem chooseVariantA_spec_witness :
    ("施設・場所名" ∈ ["施設・場所名", "緯度", "経度"] ∧
     "緯度" ∈ ["施設・場所名", "緯度", "経度"] ∧
     "経度" ∈ ["施設・場所名", "緯度", "経度"]) ∧
    chooseVariantA ["施設・場所名", "緯度", "経度"] = true :=
  ⟨⟨by simp, by simp, by simp⟩,
    (chooseVariantA_spec ["施設・場所名", "緯度", "経度"]).2
      (by simp) (by simp) (by simp)⟩

/-- C4 counterexample: with `place = "P"`, the Variant-A column `= "F"`,
and no `name` column, the claimed priority (name, place, Variant-A column)
yields "P", but the code yields "F". -/
theorem parse_row_merge_name_counterexample :
    specNameSpecOrder rowPlaceAndFacility = "P" ∧
    (parse_row_merge rowPlaceAndFacility).map Shelter.name = some "F" := by
  constructor
  · decide
  · decide

/-- C4 amended: the Variant B name priority is `name`, then the Variant-A
facility-name column, then `place` — each consulted only when every
higher-priority value is absent or blank — with the "不明" sentinel when
all three are absent or blank. -/
theorem parse_row_merge_name_priority (row : Row) (sh : Shelter PyFloat)
    (hp : parse_row_merge row = some sh) :
    (truthyStr (row "name") = true → some sh.name = row "name") ∧
    (truthyStr (row "name") = false → truthyStr (row "施設・場所名") = true →
      some sh.name = row "施設・場所名") ∧
    (truthyStr (row "name") = false → truthyStr (row "施設・場所名") = false →
      truthyStr (row "place") = true → some sh.name = row "place") ∧
    (truthyStr (row "name") = false → truthyStr (row "施設・場所名") = false →
      truthyStr (row "place") = false → sh.name = "不明") := by
  have hname : sh.name =
      orDefault (pyOr (row "name") (pyOr (row "施設・場所名") (row "place"))) "不明" := by
    revert hp
    unfold parse_row_merge
    cases safe_float (pyOr (row "lat") (pyOr (row "latitude") (row "緯度"))) with
    | none => intro hp; simp at hp
    | some la =>
      cases safe_float (pyOr (row "lon") (pyOr (row "lng")
          (pyOr (row "longitude") (row "経度")))) with
      | none => intro hp; simp at hp
      | some lo => intro hp; rw [← Option.some.inj hp]
  refine ⟨?_, ?_, ?_, ?_⟩
  · intro h
    cases hn : row "name" with
    | none => rw [hn] at h; simp [truthyStr] at h
    | some s =>
      rw [hn] at h
      have hs : s ≠ "" := by simpa [truthyStr] using h
      rw [hname, hn, pyOr_of_truthy _ (by simpa [truthyStr] using h),
        orDefault_some _ hs]
  · intro h0 h1
    cases hm : row "施設・場所名" with
    | none => rw [hm] at h1; simp [truthyStr] at h1
    | some s =>
      rw [hm] at h1
      have hs : s ≠ "" := by simpa [truthyStr] using h1
      rw [hname, pyOr_of_untruthy _ h0, hm,
        pyOr_of_truthy _ (by simpa [truthyStr] using h1), orDefault_some _ hs]
  · intro h0 h1 h2
    cases hpl : row "place" with
    | none => rw [hpl] at h2; simp [truthyStr] at h2
    | some s =>
      rw [hpl] at h2
      have hs : s ≠ "" := by simpa [truthyStr] using h2
      rw [hname, pyOr_of_untruthy _ h0, pyOr_of_untruthy _ h1, hpl,
        orDefault_some _ hs]
  · intro h0 h1 h2
    rw [hname, pyOr_of_untruthy _ h0, pyOr_of_untruthy _ h1,
      orDefault_of_untruthy _ h2]

/-- C4 witness: a row with a truthy `name` cell parses to a record whose
name is that cell's value. -/
theorem parse_row_merge_name_priority_witness :
    (parse_row_merge rowNamed = some rowNamedShelter) ∧
    ((truthyStr (rowNamed "name") = true →
        some rowNamedShelter.name = rowNamed "name") ∧
     (truthyStr (rowNamed "name") = false →
        truthyStr (rowNamed "施設・場所名") = true →
        some rowNamedShelter.name = rowNamed "施設・場所名") ∧
     (truthyStr (rowNamed "name") = false →
        truthyStr (rowNamed "施設・場所名") = false →
        truthyStr (rowNamed "place") = true →
        some rowNamedShelter.name = rowNamed "place") ∧
     (truthyStr (rowNamed "name") = false →
        truthyStr (rowNamed "施設・場所名") = false →
        truthyStr (rowNamed "place") = false →
        rowNamedShelter.name = "不明")) :=
  ⟨by decide, parse_row_merge_name_priority rowNamed rowNamedShelter (by decide)⟩

/-- C7: `limit` is clamped to `[1, 500]` (default 100, non-numeric falls
back to 100); `offset` is clamped to `≥ 0` (default 0, non-numeric falls
back to 0); the page is the slice `[offset, offset + limit)` of the
filtered sequence; `total` is the pre-pagination count; `count` equals
`min(limit, total - offset)` (truncated subtraction: 0 when
`offset ≥ total`); and an out-of-range offset yields an empty page. -/
theorem paginate_spec (limitArg offsetArg : Option String)
    (filtered : List (Shelter PyFloat)) :
    1 ≤ listLimit limitArg ∧ listLimit limitArg ≤ 500 ∧
    (pyInt (limitArg.getD "100") = none → listLimit limitArg = 100) ∧
    (limitArg = none → listLimit limitArg = 100) ∧
    (pyInt (offsetArg.getD "0") = none → listOffset offsetArg = 0) ∧
    (offsetArg = none → listOffset offsetArg = 0) ∧
    paginate limitArg offsetArg filtered =
      ⟨filtered.length,
       min (listLimit limitArg) (filtered.length - listOffset offsetArg),
       listOffset offsetArg, listLimit limitArg,
       (filtered.drop (listOffset offsetArg)).take (listLimit limitArg)⟩ ∧
    (filtered.length ≤ listOffset offsetArg →
      (paginate limitArg offsetArg filtered).items = []) := by
  refine ⟨?_, ?_, ?_, ?_, ?_, ?_, ?_, ?_⟩
  · unfold listLimit
    cases h : pyInt (limitArg.getD "100") with
    | none => simp
    | some n => simp only; omega
  · unfold listLimit
    cases h : pyInt (limitArg.getD "100") with
    | none => simp
    | some n => simp only; omega
  · intro h; simp [listLimit, h]
  · intro h; subst h; rfl
  · intro h; simp [listOffset, h]
  · intro h; subst h; rfl
  · unfold paginate
    simp [List.length_take, List.length_drop]
  · intro h
    unfold paginate
    simp [List.drop_eq_nil_of_le h]

/-- C7 witness: a non-numeric limit falls back to 100 and offset 2 on an
empty filtered sequence produces an empty page with count 0. -/
theorem paginate_spec_witness :
    1 ≤ listLimit (some "abc") ∧ listLimit (some "abc") ≤ 500 ∧
    (pyInt ((some "abc").getD "100") = none → listLimit (some "abc") = 100) ∧
    (some "abc" = none → listLimit (some "abc") = 100) ∧
    (pyInt ((some "2").getD "0") = none → listOffset (some "2") = 0) ∧
    (some "2" = none → listOffset (some "2") = 0) ∧
    paginate (some "abc") (some "2") [] =
      ⟨([] : List (Shelter PyFloat)).length,
       min (listLimit (some "abc"))
         (([] : List (Shelter PyFloat)).length - listOffset (some "2")),
       listOffset (some "2"), listLimit (some "abc"),
       (([] : List (Shelter PyFloat)).drop (listOffset (some "2"))).take
         (listLimit (some "abc"))⟩ ∧
    (([] : List (Shelter PyFloat)).length ≤ listOffset (some "2") →
      (paginate (some "abc") (some "2") []).items = []) :=
  paginate_spec (some "abc") (some "2") []

/-- C2 counterexample: `"1,2,3,4,"` has five comma-separated fields, so by
the claim it must fail with a format error, but the code drops the empty
segment and accepts it. -/
theorem applyBbox_counterexample :
    specFourNumbers "1,2,3,4," = false ∧
    applyBbox "1,2,3,4," [] = Except.ok [] := by
  constructor
  · decide
  · rfl

/-- C2 amended: after splitting on commas, stripping each segment and
dropping empty segments, exactly four numeric segments must remain, else a
format error; an ordering error exactly when `minLat > maxLat` or
`minLon > maxLon` (Python float comparison); otherwise a record is kept
exactly when its latitude lies in `[minLat, maxLat]` and its longitude in
`[minLon, maxLon]`, both ends inclusive. -/
theorem applyBbox_spec (bbox : String) (items : List (Shelter PyFloat)) :
    (∀ e, parseBbox bbox = .error e → applyBbox bbox items = .error e) ∧
    (∀ b, parseBbox bbox = .ok b →
      (PyFloat.gt b.minLat b.maxLat || PyFloat.gt b.minLon b.maxLon) = true →
      applyBbox bbox items = .error .ordering) ∧
    (∀ b, parseBbox bbox = .ok b →
      (PyFloat.gt b.minLat b.maxLat || PyFloat.gt b.minLon b.maxLon) = false →
      applyBbox bbox items = .ok (items.filter (bboxKeep b)) ∧
      ∀ s, s ∈ items.filter (bboxKeep b) ↔ s ∈ items ∧
        (PyFloat.le b.minLat s.latitude = true ∧
         PyFloat.le s.latitude b.maxLat = true ∧
         PyFloat.le b.minLon s.longitude = true ∧
         PyFloat.le s.longitude b.maxLon = true)) := by
  refine ⟨?_, ?_, ?_⟩
  · intro e he
    unfold applyBbox
    rw [he]
  · intro b hb hord
    unfold applyBbox
    rw [hb]
    simp [hord]
  · intro b hb hord
    unfold applyBbox
    rw [hb]
    simp only [hord]
    refine ⟨by simp, ?_⟩
    intro s
    rw [List.mem_filter]
    unfold bboxKeep
    simp [Bool.and_eq_true, and_assoc]

/-- C2 witness: a well-formed bbox filters an empty dataset to the empty
page, with the membership characterization. -/
theorem applyBbox_spec_witness :
    (parseBbox "139.0,35.0,140.0,36.0" =
      Except.ok ⟨PyFloat.finite 139, PyFloat.finite 35,
        PyFloat.finite 140, PyFloat.finite 36⟩ ∧
     (PyFloat.gt (PyFloat.finite 35) (PyFloat.finite 36) ||
      PyFloat.gt (PyFloat.finite 139) (PyFloat.finite 140)) = false) ∧
    (applyBbox "139.0,35.0,140.0,36.0" [] =
      Except.ok (([] : List (Shelter PyFloat)).filter
        (bboxKeep ⟨PyFloat.finite 139, PyFloat.finite 35,
          PyFloat.finite 140, PyFloat.finite 36⟩)) ∧
     ∀ s, s ∈ (([] : List (Shelter PyFloat)).filter
        (bboxKeep ⟨PyFloat.finite 139, PyFloat.finite 35,
          PyFloat.finite 140, PyFloat.finite 36⟩)) ↔
       s ∈ ([] : List (Shelter PyFloat)) ∧
       (PyFloat.le (PyFloat.finite 35) s.latitude = true ∧
        PyFloat.le s.latitude (PyFloat.finite 36) = true ∧
        PyFloat.le (PyFloat.finite 139) s.longitude = true ∧
        PyFloat.le s.longitude (PyFloat.finite 140) = true)) :=
  ⟨⟨by decide, by decide⟩,
    (applyBbox_spec "139.0,35.0,140.0,36.0" []).2.2
      ⟨PyFloat.finite 139, PyFloat.finite 35, PyFloat.finite 140, PyFloat.finite 36⟩
      (by decide) (by decide)⟩

/-- C1: for a valid origin and any dataset, `nearest` pairs every record of
the full dataset with its haversine distance, sorts the pairs
non-decreasingly on the distance key alone — stably, so any chain already
in dataset order survives as a sublist — and returns the first `limit`
entries (limit clamped to `[1, 50]`, default 5) with distances rounded to
3 decimals (the rounded distances are still non-decreasing). -/
theorem nearest_spec (lat lon : ℝ) (limitArg nArg : Option String)
    (ds : List (Shelter ℝ))
    (h : -90 ≤ lat ∧ lat ≤ 90 ∧ -180 ≤ lon ∧ lon ≤ 180) :
    nearest lat lon limitArg nArg ds =
      Except.ok ⟨lat, lon, nearestLimit limitArg nArg,
        ((sort_by_distance lat lon ds).take (nearestLimit limitArg nArg)).map
          (fun p => (p.1, round3 p.2))⟩ ∧
    1 ≤ nearestLimit limitArg nArg ∧ nearestLimit limitArg nArg ≤ 50 ∧
    nearestLimit none none = 5 ∧
    (sort_by_distance lat lon ds).Perm (ds.map (distPair lat lon)) ∧
    (sort_by_distance lat lon ds).Pairwise (fun p q => p.2 ≤ q.2) ∧
    (∀ c : List (Shelter ℝ × ℝ), c.Pairwise (fun p q => p.2 ≤ q.2) →
      c.Sublist (ds.map (distPair lat lon)) →
      c.Sublist (sort_by_distance lat lon ds)) ∧
    (((sort_by_distance lat lon ds).take (nearestLimit limitArg nArg)).map
      (fun p => (p.1, round3 p.2))).Pairwise (fun p q => p.2 ≤ q.2) := by
  have htrans : ∀ a b c : Shelter ℝ × ℝ,
      distLE a b = true → distLE b c = true → distLE a c = true := by
    intro a b c hab hbc
    simp only [distLE, decide_eq_true_eq] at hab hbc ⊢
    exact le_trans hab hbc
  have htotal : ∀ a b : Shelter ℝ × ℝ, (distLE a b || distLE b a) = true := by
    intro a b
    simp only [distLE, Bool.or_eq_true, decide_eq_true_eq]
    exact le_total a.2 b.2
  have hpair : (sort_by_distance lat lon ds).Pairwise (fun p q => p.2 ≤ q.2) := by
    unfold sort_by_distance
    exact (List.sorted_mergeSort htrans htotal (ds.map (distPair lat lon))).imp
      (fun hab => by simpa [distLE] using hab)
  refine ⟨?_, ?_, ?_, ?_, ?_, hpair, ?_, ?_⟩
  · unfold nearest
    rw [if_pos h]
  · unfold nearestLimit
    cases hpi : pyInt ((pyOr limitArg (pyOr nArg (some "5"))).getD "") with
    | none => simp
    | some n => simp only; omega
  · unfold nearestLimit
    cases hpi : pyInt ((pyOr limitArg (pyOr nArg (some "5"))).getD "") with
    | none => simp
    | some n => simp only; omega
  · rfl
  · unfold sort_by_distance
    exact List.mergeSort_perm (ds.map (distPair lat lon)) distLE
  · intro c hc hsub
    unfold sort_by_distance
    exact List.sublist_mergeSort htrans htotal
      (hc.imp (fun hab => by simp [distLE, hab])) hsub
  · exact ((hpair.sublist (List.take_sublist _ _)).map _
      (fun a b hab => round3_mono hab))

/-- C1 witness at origin (0, 0) with no limit arguments on the empty
dataset. -/
theorem nearest_spec_witness :
    ((-90 : ℝ) ≤ 0 ∧ (0 : ℝ) ≤ 90 ∧ (-180 : ℝ) ≤ 0 ∧ (0 : ℝ) ≤ 180) ∧
    (nearest 0 0 none none [] =
      Except.ok ⟨0, 0, nearestLimit none none,
        ((sort_by_distance 0 0 []).take (nearestLimit none none)).map
          (fun p => (p.1, round3 p.2))⟩ ∧
     1 ≤ nearestLimit none none ∧ nearestLimit none none ≤ 50 ∧
     nearestLimit none none = 5 ∧
     (sort_by_distance 0 0 []).Perm
        (([] : List (Shelter ℝ)).map (distPair 0 0)) ∧
     (sort_by_distance 0 0 []).Pairwise (fun p q => p.2 ≤ q.2) ∧
     (∀ c : List (Shelter ℝ × ℝ), c.Pairwise (fun p q => p.2 ≤ q.2) →
       c.Sublist (([] : List (Shelter ℝ)).map (distPair 0 0)) →
       c.Sublist (sort_by_distance 0 0 [])) ∧
     (((sort_by_distance 0 0 []).take (nearestLimit none none)).map
       (fun p => (p.1, round3 p.2))).Pairwise (fun p q => p.2 ≤ q.2)) :=
  ⟨by norm_num, nearest_spec 0 0 none none [] (by norm_num)⟩

end App
